import Mathlib

/-!
Shallow embedding of the Lynxa Pro backend's API-key lifecycle:
issuance, validation, revocation, usage logging and the chat handler
(src/api/lynxa.js, src/api/generate-key.js, src/api/revoke-key.js,
src/unnamed/part_001, part_003, part_005).

The relational store is modelled as a list of api_keys rows (or a
down/unavailable state); handlers are pure functions from request data
and store state to a response and a successor store state.  External
primitives that the handlers treat as black boxes (HMAC, JWT signing
and verification, JSON chunk parsing) are passed in as function
parameters, so every definition stays executable.
-/

namespace Lynxa

/-- JavaScript `s.startsWith(p)`: the first `p.length` characters of
`s` equal `p`. -/
def jsStartsWith (s p : String) : Bool :=
  s.data.take p.data.length == p.data

/-- JavaScript `s.endsWith(p)`: `s` is at least as long as `p` and its
last `p.length` characters equal `p`. -/
def jsEndsWith (s p : String) : Bool :=
  decide (p.data.length ≤ s.data.length)
    && (s.data.drop (s.data.length - p.data.length) == p.data)

/-- JavaScript `s.substring(n)` / `s.slice(n)`: drop the first `n`
characters. -/
def jsSlice (s : String) (n : Nat) : String := ⟨s.data.drop n⟩

/-- One row of the `api_keys` table:
`api_keys(api_key, email, expires, revoked)`.  `expires` is epoch
milliseconds (an ISO timestamp in the database). -/
structure ApiKeyRow where
  apiKey : String
  email : String
  expires : Nat
  revoked : Bool
deriving Repr, DecidableEq

/-- The key store as seen through one `nile.db.query` call: either the
database answers with its rows, or the call throws (store unavailable
or timed out). -/
inductive DbState where
  | up (rows : List ApiKeyRow)
  | down
deriving Repr, DecidableEq

/-- Result of the authentication prologue of a protected handler:
either the resolved `userData` row, or an HTTP error response
(status code and error message). -/
inductive AuthResult where
  | ok (row : ApiKeyRow)
  | err (status : Nat) (msg : String)
deriving Repr, DecidableEq

/-- `authOk r = true` iff authentication resolved a principal. -/
def authOk : AuthResult → Bool
  | .ok _ => true
  | .err _ _ => false

/-- Extract the bearer token from the `Authorization` header:
`authHeader.startsWith('Bearer ')` then `authHeader.substring(7)`
(src/api/lynxa.js lines 17-22). -/
def bearerToken (authHeader : Option String) : Option String :=
  match authHeader with
  | none => none
  | some h => if jsStartsWith h "Bearer " then some (jsSlice h 7) else none

/-- The rows returned by
`SELECT * FROM api_keys WHERE api_key = $1 AND expires > NOW() AND revoked = FALSE`
(src/api/lynxa.js line 28). -/
def usableRows (rows : List ApiKeyRow) (tok : String) (now : Nat) : List ApiKeyRow :=
  rows.filter (fun r => r.apiKey == tok && decide (now < r.expires) && !r.revoked)

/-- The key-validation body of src/api/lynxa.js lines 25-43, after the
bearer token has been extracted: a fresh store query on every call; a
thrown query (`DbState.down`) is caught and mapped to
HTTP 500 `Database error during authentication`; an empty result set is
mapped to HTTP 401 `Invalid, expired, or revoked NEXARIQ_API_KEY`;
otherwise `userData = result.rows[0]`. -/
def validateKey (tok : String) (db : DbState) (now : Nat) : AuthResult :=
  match db with
  | .down => .err 500 "Database error during authentication"
  | .up rows =>
    match usableRows rows tok now with
    | [] => .err 401 "Invalid, expired, or revoked NEXARIQ_API_KEY"
    | r :: _ => .ok r

/-- Authentication prologue of src/api/lynxa.js (lines 17-43): header
check, then `validateKey`. -/
def authLynxa (authHeader : Option String) (db : DbState) (now : Nat) : AuthResult :=
  match bearerToken authHeader with
  | none => .err 401 "NEXARIQ_API_KEY required: Authorization: Bearer <key>"
  | some tok => validateKey tok db now

/-- Claims carried by a verified JWT in the part_001 variant. -/
structure JwtClaims where
  email : String
deriving Repr, DecidableEq

/-- Authentication prologue of the JWT chat variant
(src/unnamed/part_001 lines 15-39).  `jwt.verify` and the store query
run inside one try block; a failure of either (a bad signature, or a
thrown store call) lands in the same catch and returns
HTTP 401 `Invalid or expired API key`.  An empty result set returns
HTTP 401 `Invalid, expired, or revoked API key` from inside the try. -/
def authJwt (authHeader : Option String) (verify : String → Option JwtClaims)
    (db : DbState) (now : Nat) : AuthResult :=
  match bearerToken authHeader with
  | none => .err 401 "API key required: Authorization: Bearer <key>"
  | some tok =>
    match verify tok with
    | none => .err 401 "Invalid or expired API key"
    | some _ =>
      match db with
      | .down => .err 401 "Invalid or expired API key"
      | .up rows =>
        match usableRows rows tok now with
        | [] => .err 401 "Invalid, expired, or revoked API key"
        | r :: _ => .ok r

/-- Response of a revocation handler: HTTP status, the `success` field
when the handler sets one, and the message. -/
structure RevokeResponse where
  status : Nat
  success : Option Bool
  message : String
deriving Repr, DecidableEq

/-- Effect of `UPDATE api_keys SET revoked = TRUE WHERE api_key = $1`
on the rows: every row matching the token gets `revoked := true`. -/
def revokeRows (rows : List ApiKeyRow) (tok : String) : List ApiKeyRow :=
  rows.map (fun r => if r.apiKey == tok then { r with revoked := true } else r)

/-- `result.rowCount` of that UPDATE: the number of rows matched by the
WHERE clause. -/
def matchCount (rows : List ApiKeyRow) (tok : String) : Nat :=
  (rows.filter (fun r => r.apiKey == tok)).length

/-- The revocation handler of src/unnamed/part_003 (the variant that
checks `result.rowCount`): missing or empty body key is HTTP 400; a
thrown store call is caught as HTTP 500 `Database error`;
`rowCount === 0` is HTTP 404 `API key not found`; otherwise HTTP 200
`Key revoked successfully`.  Returns the response together with the
store state after the UPDATE. -/
def revokeHandler (apiKey : Option String) (db : DbState) : RevokeResponse × DbState :=
  match apiKey with
  | none => (⟨400, none, "API key required in request body"⟩, db)
  | some tok =>
    if tok == "" then (⟨400, none, "API key required in request body"⟩, db)
    else
      match db with
      | .down => (⟨500, none, "Database error"⟩, db)
      | .up rows =>
        if matchCount rows tok == 0 then
          (⟨404, some false, "API key not found"⟩, .up (revokeRows rows tok))
        else
          (⟨200, some true, "Key revoked successfully"⟩, .up (revokeRows rows tok))

/-- The revocation handler of src/api/revoke-key.js: same UPDATE but no
`rowCount` check — any completed query answers HTTP 200
`Key revoked`, whether or not a row matched. -/
def revokeSimple (apiKey : Option String) (db : DbState) : RevokeResponse × DbState :=
  match apiKey with
  | none => (⟨400, none, "API key required"⟩, db)
  | some tok =>
    if tok == "" then (⟨400, none, "API key required"⟩, db)
    else
      match db with
      | .down => (⟨500, none, "Database error"⟩, db)
      | .up rows =>
        (⟨200, some true, "Key revoked"⟩, .up (revokeRows rows tok))

/-- Response of the JWT issuance handler (src/api/generate-key.js).
`expires` is the expiry timestamp in epoch milliseconds
(`new Date(payload.exp * 1000).toISOString()` in the source). -/
structure GenJwtResponse where
  status : Nat
  apiKey : Option String
  expires : Option Nat
  message : String
deriving Repr, DecidableEq

/-- 30 days in seconds: `30 * 24 * 60 * 60` (src/api/generate-key.js
line 38). -/
def thirtyDaysSec : Nat := 30 * 24 * 60 * 60

/-- The JWT issuance handler, src/api/generate-key.js lines 20-70:
requires a non-empty email ending in `@gmail.com`; requires
`JWT_SECRET` (else HTTP 500 `Server configuration error`); builds the
payload `{email, iat: floor(now/1000), exp: floor(now/1000)+30 days}`;
signs it (`sign` stands for `jwt.sign(payload, JWT_SECRET)`); inserts
`(api_key, email, expires, FALSE)` into `api_keys`; a thrown insert is
caught as HTTP 500 `Server error`.  `nowMs` is `Date.now()`. -/
def generateKeyJwt (email : Option String) (hasSecret : Bool)
    (sign : String → Nat → Nat → String) (nowMs : Nat) (db : DbState) :
    GenJwtResponse × DbState :=
  match email with
  | none => (⟨400, none, none, "Valid Gmail address required"⟩, db)
  | some e =>
    if e == "" || !(jsEndsWith e "@gmail.com") then
      (⟨400, none, none, "Valid Gmail address required"⟩, db)
    else if !hasSecret then
      (⟨500, none, none, "Server configuration error"⟩, db)
    else
      let iat := nowMs / 1000
      let exp := nowMs / 1000 + thirtyDaysSec
      let key := sign e iat exp
      let expiresMs := exp * 1000
      match db with
      | .down => (⟨500, none, none, "Server error"⟩, db)
      | .up rows =>
        (⟨200, some key, some expiresMs,
          "Key generated. Keep secure! Expires in 30 days."⟩,
         .up (rows ++ [⟨key, e, expiresMs, false⟩]))

/-- Value stored in the in-memory map of src/unnamed/part_005:
`{ email, created }`. -/
structure MemRecord where
  email : String
  created : Nat
deriving Repr, DecidableEq

/-- An in-memory `Map` from hashed key to record, as an association
list. -/
abbrev MemStore := List (String × MemRecord)

/-- `apiKeys.get h` on a `MemStore`. -/
def memLookup (s : MemStore) (h : String) : Option MemRecord :=
  (s.find? (fun p => p.1 == h)).map (fun p => p.2)

/-- Response of the opaque-random issuance handler
(src/unnamed/part_005).  Its `expires` field is literally `null` in the
source. -/
structure GenMemResponse where
  status : Nat
  success : Option Bool
  apiKey : Option String
  expires : Option Nat
  message : String
deriving Repr, DecidableEq

/-- The opaque-random issuance handler, src/unnamed/part_005: requires
a non-empty email ending in `@gmail.com`; builds
`plainKey = "lynxa_pro_" + randomUUID()` and
`hashedKey = HMAC-SHA256(API_KEY_SECRET, plainKey)` (`hmac` stands for
the HMAC, `uuid` for the random UUID); then creates a **fresh**
`const apiKeys = new Map()` inside the handler body, stores the record
in it, and answers HTTP 200 with `expires: null`.  The second component
of the result is the state that outlives the invocation, which the
local map is not part of: it is returned unchanged. -/
def generateKeyMem (email : Option String) (hmac : String → String)
    (uuid : String) (now : Nat) (persist : MemStore) :
    GenMemResponse × MemStore :=
  match email with
  | none => (⟨400, none, none, none, "Valid Gmail address required"⟩, persist)
  | some e =>
    if e == "" || !(jsEndsWith e "@gmail.com") then
      (⟨400, none, none, none, "Valid Gmail address required"⟩, persist)
    else
      let plainKey := "lynxa_pro_" ++ uuid
      let hashedKey := hmac plainKey
      let _apiKeys : MemStore := [(hashedKey, ⟨e, now⟩)]
      (⟨200, some true, some plainKey, none,
        "Key generated. Keep this secure!"⟩, persist)

/-- Token-usage counters of a chat completion. -/
structure Usage where
  prompt_tokens : Nat
  completion_tokens : Nat
  total_tokens : Nat
deriving Repr, DecidableEq

/-- The parts of the upstream (Groq) JSON completion that the
non-streaming path reads: `data.choices[0].message.content` and the
optional `data.usage`. -/
structure UpstreamData where
  content : String
  usage : Option Usage
deriving Repr, DecidableEq

/-- The caller-visible JSON of the non-streaming path
(src/api/lynxa.js lines 167-188). -/
structure ChatResponse where
  status : Nat
  id : String
  model : String
  content : String
  usage : Usage
  user : String
deriving Repr, DecidableEq

/-- Observable side effects of the usage-recording attempt
(src/api/lynxa.js lines 156-165): either one `api_logs` insert, or the
caught-and-logged warning `Usage log failed`. -/
inductive LogEvent where
  | logged (email tok : String) (inputTokens outputTokens : Nat)
  | warn (msg : String)
deriving Repr, DecidableEq

/-- The non-streaming tail of src/api/lynxa.js (lines 150-189): first
the `INSERT INTO api_logs ...` inside its own try/catch — a thrown
insert (`logDb = down`) is only `console.warn`-ed — then, in either
case, the HTTP 200 completion built from the upstream data.  Returns
the response together with the list of logging side effects. -/
def nonStreamRespond (data : UpstreamData) (email tok msgId : String)
    (logDb : DbState) : ChatResponse × List LogEvent :=
  let logEvents :=
    match logDb with
    | .down => [LogEvent.warn "Usage log failed"]
    | .up _ =>
      [LogEvent.logged email tok
        ((data.usage.map Usage.prompt_tokens).getD 0)
        ((data.usage.map Usage.completion_tokens).getD 0)]
  (⟨200, msgId, "lynxa-pro", data.content,
    ⟨(data.usage.map Usage.prompt_tokens).getD 0,
     (data.usage.map Usage.completion_tokens).getD 0,
     (data.usage.map Usage.total_tokens).getD 0⟩,
    email⟩, logEvents)

/-- An event written to the SSE response in streaming mode: either a
content delta, or the final chunk carrying the usage object
(src/api/lynxa.js lines 107-135).  The source's `total_time` float is
presentation-only and not modelled. -/
inductive SSEvent where
  | delta (content : String)
  | final (usage : Usage)
deriving Repr, DecidableEq

/-- The streaming loop of src/api/lynxa.js lines 96-141, over the
upstream SSE lines (already split on newlines; blank lines filtered by
the source).  `parse` stands for
`JSON.parse(data).choices[0]?.delta?.content`: `none` is a thrown
parse (ignored), `some none` a chunk without content, `some (some c)`
a chunk with content `c` (written only when truthy, i.e. nonempty).
`data: [DONE]` writes the final chunk — whose usage is the hardcoded
`{prompt_tokens: 143, completion_tokens: 80, total_tokens: 223}` — and
returns. -/
def processStreamLines (parse : String → Option (Option String)) :
    List String → List SSEvent
  | [] => []
  | l :: ls =>
    if jsStartsWith l "data: " then
      let d := jsSlice l 6
      if d == "[DONE]" then
        [SSEvent.final ⟨143, 80, 223⟩]
      else
        match parse d with
        | some (some c) =>
          if c == "" then processStreamLines parse ls
          else SSEvent.delta c :: processStreamLines parse ls
        | _ => processStreamLines parse ls
    else processStreamLines parse ls

/-- Overall outcome of one invocation of the chat handler
src/api/lynxa.js. -/
inductive LynxaOutcome where
  | methodNotAllowed
  | authFailed (status : Nat) (msg : String)
  | missingMessages
  | upstreamFailed
  | streamed (events : List SSEvent)
  | completed (resp : ChatResponse) (log : List LogEvent)
deriving Repr, DecidableEq

/-- HTTP status of a `LynxaOutcome` (405, the auth error's status, 400
`Messages array is required`, 500 `Failed to get response`, or the 200
of the streamed / completed response). -/
def statusOf : LynxaOutcome → Nat
  | .methodNotAllowed => 405
  | .authFailed s _ => s
  | .missingMessages => 400
  | .upstreamFailed => 500
  | .streamed _ => 200
  | .completed r _ => r.status

/-- The whole chat handler src/api/lynxa.js lines 11-199: method
check, bearer-token authentication against the key store, the
`messages.length` check, the upstream call (`upstreamOk` is
`response.ok`; `data` the decoded JSON body, `streamLines` the SSE
lines of the streamed body), then the streaming or non-streaming
tail.  Nowhere in the handler is a rate-limit window consulted or a
429 produced. -/
def lynxaHandler (method : String) (authHeader : Option String)
    (authDb : DbState) (now : Nat) (messages : List String)
    (streamFlag : Bool) (upstreamOk : Bool) (data : UpstreamData)
    (streamLines : List String) (parse : String → Option (Option String))
    (logDb : DbState) (msgId : String) : LynxaOutcome :=
  if method ≠ "POST" then .methodNotAllowed
  else
    match authLynxa authHeader authDb now with
    | .err s m => .authFailed s m
    | .ok row =>
      if messages.isEmpty then .missingMessages
      else if !upstreamOk then .upstreamFailed
      else if streamFlag then .streamed (processStreamLines parse streamLines)
      else
        let tok := (bearerToken authHeader).getD ""
        let rl := nonStreamRespond data row.email tok msgId logDb
        .completed rl.1 rl.2

/-! ### Helper lemmas -/

theorem bearerToken_bearer (tok : String) :
    bearerToken (some ("Bearer " ++ tok)) = some tok := by
  simp [bearerToken, jsStartsWith, jsSlice, String.data_append]

theorem usableRows_eq_nil_iff (rows : List ApiKeyRow) (tok : String) (now : Nat) :
    usableRows rows tok now = [] ↔
      ∀ r ∈ rows, r.apiKey = tok → r.revoked = false → ¬ now < r.expires := by
  unfold usableRows
  rw [List.filter_eq_nil_iff]
  constructor
  · intro h r hr hkey hrev hexp
    exact h r hr (by simp [hkey, hrev, hexp])
  · intro h r hr hp
    simp only [Bool.and_eq_true, beq_iff_eq, decide_eq_true_eq,
      Bool.not_eq_true'] at hp
    exact h r hr hp.1.1 hp.2 hp.1.2

theorem authOk_validateKey_iff (rows : List ApiKeyRow) (tok : String) (now : Nat) :
    authOk (validateKey tok (.up rows) now) = true ↔
      ∃ r ∈ rows, r.apiKey = tok ∧ r.revoked = false ∧ now < r.expires := by
  have hv : validateKey tok (.up rows) now =
      (match usableRows rows tok now with
       | [] => AuthResult.err 401 "Invalid, expired, or revoked NEXARIQ_API_KEY"
       | r :: _ => AuthResult.ok r) := rfl
  rcases h : usableRows rows tok now with _ | ⟨r, rs⟩
  · rw [hv, h]
    have h2 := (usableRows_eq_nil_iff rows tok now).mp h
    simp only [authOk, Bool.false_eq_true, false_iff]
    rintro ⟨x, hx, hkey, hrev, hexp⟩
    exact h2 x hx hkey hrev hexp
  · rw [hv, h]
    have hr : r ∈ usableRows rows tok now := by
      rw [h]; exact List.mem_cons_self r rs
    rw [usableRows, List.mem_filter] at hr
    simp only [Bool.and_eq_true, beq_iff_eq, decide_eq_true_eq,
      Bool.not_eq_true'] at hr
    exact iff_of_true rfl ⟨r, hr.1, hr.2.1.1, hr.2.2, hr.2.1.2⟩

theorem revokeRows_apiKey_mem {rows : List ApiKeyRow} {tok : String}
    {r : ApiKeyRow} (h : r ∈ revokeRows rows tok) :
    ∃ r₀ ∈ rows, r₀.apiKey = r.apiKey ∧ (r.apiKey = tok → r.revoked = true) := by
  unfold revokeRows at h
  rw [List.mem_map] at h
  obtain ⟨r₀, hr₀, heq⟩ := h
  by_cases hk : r₀.apiKey = tok
  · rw [if_pos (by simpa using hk)] at heq
    exact ⟨r₀, hr₀, by rw [← heq], fun _ => by rw [← heq]⟩
  · rw [if_neg (by simpa using hk)] at heq
    exact ⟨r₀, hr₀, by rw [← heq], fun hc => absurd (heq ▸ hc) hk⟩

theorem usableRows_revokeRows (rows : List ApiKeyRow) (tok : String) (now : Nat) :
    usableRows (revokeRows rows tok) tok now = [] := by
  rw [usableRows_eq_nil_iff]
  intro r hr hkey hrev _
  obtain ⟨r₀, _, _, himp⟩ := revokeRows_apiKey_mem hr
  rw [himp hkey] at hrev
  exact Bool.true_eq_false.mp hrev

theorem matchCount_revokeRows (rows : List ApiKeyRow) (tok : String) :
    matchCount (revokeRows rows tok) tok = matchCount rows tok := by
  induction rows with
  | nil => rfl
  | cons r rs ih =>
    by_cases h : r.apiKey = tok <;>
      simp [matchCount, revokeRows, List.filter_cons, h] at ih ⊢ <;>
      simpa [matchCount, revokeRows] using ih

theorem revokeRows_idem (rows : List ApiKeyRow) (tok : String) :
    revokeRows (revokeRows rows tok) tok = revokeRows rows tok := by
  induction rows with
  | nil => rfl
  | cons r rs ih =>
    by_cases h : r.apiKey = tok <;>
      simp [revokeRows, h] at ih ⊢ <;> exact ih

theorem revokeRows_no_match (rows : List ApiKeyRow) (tok : String)
    (h : ∀ r ∈ rows, r.apiKey ≠ tok) : revokeRows rows tok = rows := by
  induction rows with
  | nil => rfl
  | cons r rs ih =>
    have hr := h r (List.mem_cons_self r rs)
    have ht : revokeRows rs tok = rs :=
      ih fun x hx => h x (List.mem_cons_of_mem r hx)
    have hstep : revokeRows (r :: rs) tok =
        (if (r.apiKey == tok) = true then
          { r with revoked := true } else r) :: revokeRows rs tok := rfl
    rw [hstep, if_neg (by simpa using hr), ht]

theorem matchCount_eq_zero_iff (rows : List ApiKeyRow) (tok : String) :
    matchCount rows tok = 0 ↔ ∀ r ∈ rows, r.apiKey ≠ tok := by
  unfold matchCount
  rw [List.length_eq_zero, List.filter_eq_nil_iff]
  simp

theorem getLast?_cons_of_getLast? {α : Type} (a : α) {xs : List α} {e : α}
    (h : xs.getLast? = some e) : (a :: xs).getLast? = some e := by
  cases xs with
  | nil => simp at h
  | cons b bs => rw [List.getLast?_cons_cons]; exact h

/-! ### Claim theorems -/

/-- Claim C2 fails as stated: the error src/api/lynxa.js returns for a
revoked (unexpired) key is byte-for-byte the same HTTP 401 response it
returns for an expired key and for a token absent from the store, so it
is not distinguishable from either. -/
theorem revoked_error_not_distinct :
    validateKey "k1" (.up [⟨"k1", "a@gmail.com", 100, true⟩]) 0 =
      validateKey "k2" (.up [⟨"k2", "b@gmail.com", 0, false⟩]) 5
    ∧ validateKey "k1" (.up [⟨"k1", "a@gmail.com", 100, true⟩]) 0 =
      validateKey "k3" (.up []) 0 := by decide

/-- Claim C2 (amended): a stored key with `revoked = true` is rejected
with HTTP 401 regardless of its expiry state, but with the handler's
single shared error `Invalid, expired, or revoked NEXARIQ_API_KEY` —
identical to the response for an absent token — rather than a distinct
`CredentialRevoked` error. -/
theorem revoked_key_shared_error (rows : List ApiKeyRow) (tok : String)
    (now : Nat) (hall : ∀ r ∈ rows, r.apiKey = tok → r.revoked = true) :
    validateKey tok (.up rows) now =
      .err 401 "Invalid, expired, or revoked NEXARIQ_API_KEY"
    ∧ validateKey tok (.up rows) now = validateKey tok (.up []) now := by
  have h : usableRows rows tok now = [] := by
    rw [usableRows_eq_nil_iff]
    intro r hr hkey hrev _
    rw [hall r hr hkey] at hrev
    exact absurd hrev (by simp)
  have hv : validateKey tok (.up rows) now =
      (match usableRows rows tok now with
       | [] => AuthResult.err 401 "Invalid, expired, or revoked NEXARIQ_API_KEY"
       | r :: _ => AuthResult.ok r) := rfl
  rw [hv, h]
  exact ⟨rfl, rfl⟩

/-- Witness for `revoked_key_shared_error`: a revoked key that is far
from expiry. -/
theorem revoked_key_shared_error_witness :
    validateKey "k" (.up [⟨"k", "a@gmail.com", 100, true⟩]) 0 =
      .err 401 "Invalid, expired, or revoked NEXARIQ_API_KEY"
    ∧ validateKey "k" (.up [⟨"k", "a@gmail.com", 100, true⟩]) 0 =
      validateKey "k" (.up []) 0 :=
  revoked_key_shared_error [⟨"k", "a@gmail.com", 100, true⟩] "k" 0 (by decide)

/-- Claim C3 fails as stated: in the JWT chat variant
(src/unnamed/part_001) the store query shares one try/catch with
`jwt.verify`, so a store failure after a successful signature check is
answered with HTTP 401 `Invalid or expired API key` — the very
credential error the claim says a store failure must never produce. -/
theorem store_failure_reported_as_401 :
    authJwt (some "Bearer t") (fun _ => some ⟨"a@gmail.com"⟩) .down 0 =
      .err 401 "Invalid or expired API key"
    ∧ authJwt (some "Bearer t") (fun _ => some ⟨"a@gmail.com"⟩) .down 0 =
      authJwt (some "Bearer t") (fun _ => none) (.up []) 0 := by decide

/-- Claim C3 (amended): in src/api/lynxa.js a store failure is
answered with HTTP 500 `Database error during authentication` —
distinct from every credential error the validator can produce (all of
which are HTTP 401 with a different message), and never HTTP 401 —
though the status is 500, not the claimed retryable 503; in the JWT
variant (src/unnamed/part_001) a store failure is instead reported as
the same HTTP 401 `Invalid or expired API key` used for a bad key. -/
theorem store_failure_lynxa_distinct (tok tok₂ : String)
    (rows : List ApiKeyRow) (now now₂ s : Nat) (m : String) (v : JwtClaims)
    (herr : validateKey tok₂ (.up rows) now₂ = .err s m) :
    validateKey tok .down now = .err 500 "Database error during authentication"
    ∧ s = 401 ∧ m ≠ "Database error during authentication"
    ∧ authJwt (some ("Bearer " ++ tok)) (fun _ => some v) .down now =
        .err 401 "Invalid or expired API key" := by
  have hsm : s = 401 ∧ m = "Invalid, expired, or revoked NEXARIQ_API_KEY" := by
    have hv : validateKey tok₂ (.up rows) now₂ =
        (match usableRows rows tok₂ now₂ with
         | [] => AuthResult.err 401 "Invalid, expired, or revoked NEXARIQ_API_KEY"
         | r :: _ => AuthResult.ok r) := rfl
    rw [hv] at herr
    rcases h : usableRows rows tok₂ now₂ with _ | ⟨r, rs⟩
    · rw [h] at herr
      injection herr with h1 h2
      exact ⟨h1.symm, h2.symm⟩
    · rw [h] at herr
      exact absurd herr (by simp)
  refine ⟨rfl, hsm.1, ?_, ?_⟩
  · rw [hsm.2]; decide
  · simp [authJwt, bearerToken_bearer]

/-- Witness for `store_failure_lynxa_distinct` at concrete inputs. -/
theorem store_failure_lynxa_distinct_witness :
    validateKey "k" .down 0 = .err 500 "Database error during authentication"
    ∧ 401 = 401
    ∧ "Invalid, expired, or revoked NEXARIQ_API_KEY" ≠
        "Database error during authentication"
    ∧ authJwt (some ("Bearer " ++ "k")) (fun _ => some ⟨"a@gmail.com"⟩) .down 0 =
        .err 401 "Invalid or expired API key" :=
  store_failure_lynxa_distinct "k" "x" [] 0 0 401
    "Invalid, expired, or revoked NEXARIQ_API_KEY" ⟨"a@gmail.com"⟩ (by decide)

/-- Claim C4: for a stored key — the unique row holding the presented
token — validation in src/api/lynxa.js resolves the owning principal
iff the key satisfies `!revoked && now < expiresAt`.  Validation is a
fresh function of the store contents and the clock on every call
(nothing is cached), so after the revocation UPDATE the very same
validation immediately rejects the token. -/
theorem validate_usability_iff (rows : List ApiKeyRow) (tok : String)
    (now : Nat) (k : ApiKeyRow) (hk : k ∈ rows) (hkey : k.apiKey = tok)
    (huniq : ∀ r ∈ rows, r.apiKey = tok → r = k) :
    (authOk (validateKey tok (.up rows) now) = true ↔
      (k.revoked = false ∧ now < k.expires))
    ∧ authOk (validateKey tok (.up (revokeRows rows tok)) now) = false := by
  constructor
  · rw [authOk_validateKey_iff]
    constructor
    · rintro ⟨r, hr, hkey2, hrev, hexp⟩
      obtain rfl := huniq r hr hkey2
      exact ⟨hrev, hexp⟩
    · rintro ⟨hrev, hexp⟩
      exact ⟨k, hk, hkey, hrev, hexp⟩
  · have h := usableRows_revokeRows rows tok now
    have hv : validateKey tok (.up (revokeRows rows tok)) now =
        (match usableRows (revokeRows rows tok) tok now with
         | [] => AuthResult.err 401 "Invalid, expired, or revoked NEXARIQ_API_KEY"
         | r :: _ => AuthResult.ok r) := rfl
    rw [hv, h]
    rfl

/-- Witness for `validate_usability_iff`: a usable stored key, which the
revocation UPDATE then makes unusable. -/
theorem validate_usability_iff_witness :
    (authOk (validateKey "k" (.up [⟨"k", "a@gmail.com", 100, false⟩]) 5) = true ↔
      ((⟨"k", "a@gmail.com", 100, false⟩ : ApiKeyRow).revoked = false ∧
        5 < (⟨"k", "a@gmail.com", 100, false⟩ : ApiKeyRow).expires))
    ∧ authOk (validateKey "k"
        (.up (revokeRows [⟨"k", "a@gmail.com", 100, false⟩] "k")) 5) = false :=
  validate_usability_iff [⟨"k", "a@gmail.com", 100, false⟩] "k" 5
    ⟨"k", "a@gmail.com", 100, false⟩ (by decide) rfl (by decide)

theorem validateKey_err_status (tok : String) (db : DbState) (now s : Nat)
    (m : String) (he : validateKey tok db now = .err s m) : s = 401 ∨ s = 500 := by
  rcases db with rows | _
  · have hv : validateKey tok (.up rows) now =
        (match usableRows rows tok now with
         | [] => AuthResult.err 401 "Invalid, expired, or revoked NEXARIQ_API_KEY"
         | r :: _ => AuthResult.ok r) := rfl
    rw [hv] at he
    rcases hu : usableRows rows tok now with _ | ⟨r, rs⟩
    · rw [hu] at he
      injection he with h1 _
      exact Or.inl h1.symm
    · rw [hu] at he
      exact absurd he (by simp)
  · have hv : validateKey tok .down now =
        .err 500 "Database error during authentication" := rfl
    rw [hv] at he
    injection he with h1 _
    exact Or.inr h1.symm

theorem authLynxa_err_status (h : Option String) (db : DbState) (now s : Nat)
    (m : String) (he : authLynxa h db now = .err s m) : s = 401 ∨ s = 500 := by
  unfold authLynxa at he
  rcases hb : bearerToken h with _ | tok
  · rw [hb] at he
    injection he with h1 _
    exact Or.inl h1.symm
  · rw [hb] at he
    exact validateKey_err_status tok db now s m he

/-- Claim C1: contrary to the claim (and to README.md's rate-limiting
documentation), src/api/lynxa.js performs no rate-limit admission check
at all: whatever number of requests has already been processed in the
current window (`priorWindowRequests` — which the handler does not even
consult), no invocation of the chat handler ever answers HTTP 429, so
request 1001 on a `rateLimit=1000` key is admitted like every other. -/
theorem lynxa_never_rate_limits (_priorWindowRequests : Nat) (method : String)
    (authHeader : Option String) (authDb : DbState) (now : Nat)
    (messages : List String) (streamFlag upstreamOk : Bool)
    (data : UpstreamData) (streamLines : List String)
    (parse : String → Option (Option String)) (logDb : DbState)
    (msgId : String) :
    statusOf (lynxaHandler method authHeader authDb now messages streamFlag
      upstreamOk data streamLines parse logDb msgId) ≠ 429 := by
  unfold lynxaHandler
  split
  · simp [statusOf]
  · rcases ha : authLynxa authHeader authDb now with row | ⟨s, m⟩
    · simp only []
      split
      · simp [statusOf]
      · split
        · simp [statusOf]
        · split
          · simp [statusOf]
          · simp [statusOf, nonStreamRespond]
    · simp only [statusOf]
      rcases authLynxa_err_status authHeader authDb now s m ha with h4 | h5
      · omega
      · omega

/-- Claim C5 fails as stated: the opaque-random issuance handler
(src/unnamed/part_005) successfully issues a key whose response carries
`expires: null` — an issuance that returns a key without any expiry. -/
theorem issuance_without_expiry :
    (generateKeyMem (some "user@gmail.com") (fun s => s) "u1" 0 []).1.status = 200
    ∧ (generateKeyMem (some "user@gmail.com") (fun s => s) "u1" 0 []).1.success =
        some true
    ∧ (generateKeyMem (some "user@gmail.com") (fun s => s) "u1" 0 []).1.expires =
        none := by decide

/-- Claim C5 (amended): the JWT issuance handler
(src/api/generate-key.js) gives every issued key the mandatory expiry
`floor(now/1000) + 30 days` (stored and returned in milliseconds), and
inserts the row unrevoked with exactly that expiry; the opaque-random
variant (src/unnamed/part_005), however, issues keys with `expires:
null` — no expiry at all. -/
theorem jwt_issuance_thirty_day_expiry (e : String)
    (sign : String → Nat → Nat → String) (nowMs : Nat)
    (rows : List ApiKeyRow) (h1 : e ≠ "")
    (h2 : jsEndsWith e "@gmail.com" = true) :
    (generateKeyJwt (some e) true sign nowMs (.up rows)).1.status = 200
    ∧ (generateKeyJwt (some e) true sign nowMs (.up rows)).1.expires =
        some ((nowMs / 1000 + thirtyDaysSec) * 1000)
    ∧ (generateKeyJwt (some e) true sign nowMs (.up rows)).2 =
        .up (rows ++ [⟨sign e (nowMs / 1000) (nowMs / 1000 + thirtyDaysSec), e,
          (nowMs / 1000 + thirtyDaysSec) * 1000, false⟩]) := by
  have hc : (e == "" || !(jsEndsWith e "@gmail.com")) = false := by
    simp [h1, h2]
  refine ⟨?_, ?_, ?_⟩ <;> simp [generateKeyJwt, hc]

/-- Witness for `jwt_issuance_thirty_day_expiry` at a concrete email
and clock. -/
theorem jwt_issuance_thirty_day_expiry_witness :
    (generateKeyJwt (some "a@gmail.com") true (fun e _ _ => e) 1000 (.up [])).1.status = 200
    ∧ (generateKeyJwt (some "a@gmail.com") true (fun e _ _ => e) 1000 (.up [])).1.expires =
        some ((1000 / 1000 + thirtyDaysSec) * 1000)
    ∧ (generateKeyJwt (some "a@gmail.com") true (fun e _ _ => e) 1000 (.up [])).2 =
        .up ([] ++ [⟨(fun (e : String) (_ _ : Nat) => e) "a@gmail.com" (1000 / 1000) (1000 / 1000 + thirtyDaysSec), "a@gmail.com",
          (1000 / 1000 + thirtyDaysSec) * 1000, false⟩]) :=
  jwt_issuance_thirty_day_expiry "a@gmail.com" (fun e _ _ => e) 1000 []
    (by decide) (by decide)

/-- Claim C6: the caller-visible response of the non-streaming chat
path is byte-for-byte independent of whether the `api_logs` insert
succeeds or throws — the handler answers the same HTTP 200 completion
either way, and a recording failure shows up only in the logging side
effects. -/
theorem usage_log_failure_invisible (data : UpstreamData)
    (email tok msgId : String) (logDbA logDbB : DbState) :
    (nonStreamRespond data email tok msgId logDbA).1 =
      (nonStreamRespond data email tok msgId logDbB).1
    ∧ (nonStreamRespond data email tok msgId logDbA).1.status = 200 :=
  ⟨rfl, rfl⟩

/-- Claim C7: revocation (src/unnamed/part_003) is idempotent — on a
token present in the store, the first call succeeds with HTTP 200, the
second call returns the same HTTP 200 success (the UPDATE still matches
the row, so `rowCount` is nonzero), the store state after the second
call equals the state after the first, and every matching row is left
with `revoked = true`. -/
theorem revoke_idempotent (rows : List ApiKeyRow) (tok : String)
    (htok : tok ≠ "") (hmem : ∃ r ∈ rows, r.apiKey = tok) :
    (revokeHandler (some tok) (.up rows)).1.status = 200
    ∧ (revokeHandler (some tok) (revokeHandler (some tok) (.up rows)).2).1 =
        ⟨200, some true, "Key revoked successfully"⟩
    ∧ (revokeHandler (some tok) (revokeHandler (some tok) (.up rows)).2).2 =
        (revokeHandler (some tok) (.up rows)).2
    ∧ ∀ r ∈ revokeRows rows tok, r.apiKey = tok → r.revoked = true := by
  have hcnt : ¬ matchCount rows tok = 0 := by
    rw [matchCount_eq_zero_iff]
    push_neg
    obtain ⟨r, hr, hk⟩ := hmem
    exact ⟨r, hr, hk⟩
  have h1 : revokeHandler (some tok) (.up rows) =
      (⟨200, some true, "Key revoked successfully"⟩,
        .up (revokeRows rows tok)) := by
    simp [revokeHandler, htok, hcnt]
  have hcnt2 : ¬ matchCount (revokeRows rows tok) tok = 0 := by
    rw [matchCount_revokeRows]; exact hcnt
  have h2 : revokeHandler (some tok) (.up (revokeRows rows tok)) =
      (⟨200, some true, "Key revoked successfully"⟩,
        .up (revokeRows (revokeRows rows tok) tok)) := by
    simp [revokeHandler, htok, hcnt2]
  refine ⟨by rw [h1], ?_, ?_, ?_⟩
  · show (revokeHandler (some tok) (revokeHandler (some tok) (.up rows)).2).1 = _
    rw [h1]
    show (revokeHandler (some tok) (.up (revokeRows rows tok))).1 = _
    rw [h2]
  · rw [h1]
    show (revokeHandler (some tok) (.up (revokeRows rows tok))).2 =
      DbState.up (revokeRows rows tok)
    rw [h2]
    show DbState.up (revokeRows (revokeRows rows tok) tok) =
      DbState.up (revokeRows rows tok)
    rw [revokeRows_idem]
  · intro r hr hk
    obtain ⟨r₀, _, _, himp⟩ := revokeRows_apiKey_mem hr
    exact himp hk

/-- Witness for `revoke_idempotent` on a one-row store. -/
theorem revoke_idempotent_witness :
    (revokeHandler (some "k") (.up [⟨"k", "a@gmail.com", 100, false⟩])).1.status = 200
    ∧ (revokeHandler (some "k")
        (revokeHandler (some "k") (.up [⟨"k", "a@gmail.com", 100, false⟩])).2).1 =
        ⟨200, some true, "Key revoked successfully"⟩
    ∧ (revokeHandler (some "k")
        (revokeHandler (some "k") (.up [⟨"k", "a@gmail.com", 100, false⟩])).2).2 =
        (revokeHandler (some "k") (.up [⟨"k", "a@gmail.com", 100, false⟩])).2
    ∧ ∀ r ∈ revokeRows [⟨"k", "a@gmail.com", 100, false⟩] "k",
        r.apiKey = "k" → r.revoked = true :=
  revoke_idempotent [⟨"k", "a@gmail.com", 100, false⟩] "k" (by decide)
    ⟨⟨"k", "a@gmail.com", 100, false⟩, by decide, rfl⟩

/-- Claim C8 fails as stated: src/api/revoke-key.js has no `rowCount`
check, so revoking a token absent from the store answers HTTP 200
`{success: true}` — reporting success, not `NotFound`. -/
theorem revoke_missing_reports_success :
    revokeSimple (some "kX") (.up []) =
      (⟨200, some true, "Key revoked"⟩, .up []) := by decide

/-- Claim C8 (amended): for a token not present in the store, the
`rowCount`-checking variant (src/unnamed/part_003) returns HTTP 404
`API key not found` with the store unchanged, while the
src/api/revoke-key.js variant reports HTTP 200 success (the store is
likewise unchanged); neither crashes. -/
theorem revoke_missing_behavior (rows : List ApiKeyRow) (tok : String)
    (htok : tok ≠ "") (habsent : ∀ r ∈ rows, r.apiKey ≠ tok) :
    revokeHandler (some tok) (.up rows) =
      (⟨404, some false, "API key not found"⟩, .up rows)
    ∧ revokeSimple (some tok) (.up rows) =
      (⟨200, some true, "Key revoked"⟩, .up rows) := by
  have hz : matchCount rows tok = 0 := (matchCount_eq_zero_iff rows tok).mpr habsent
  have hn := revokeRows_no_match rows tok habsent
  constructor
  · simp [revokeHandler, htok, hz, hn]
  · simp [revokeSimple, htok, hn]

/-- Witness for `revoke_missing_behavior`: revoking a token the store
does not hold. -/
theorem revoke_missing_behavior_witness :
    revokeHandler (some "k") (.up [⟨"a", "e@gmail.com", 1, false⟩]) =
      (⟨404, some false, "API key not found"⟩, .up [⟨"a", "e@gmail.com", 1, false⟩])
    ∧ revokeSimple (some "k") (.up [⟨"a", "e@gmail.com", 1, false⟩]) =
      (⟨200, some true, "Key revoked"⟩, .up [⟨"a", "e@gmail.com", 1, false⟩]) :=
  revoke_missing_behavior [⟨"a", "e@gmail.com", 1, false⟩] "k" (by decide) (by decide)

/-- Claim C9: the opaque-random issuance handler (src/unnamed/part_005)
creates its key map fresh inside the invocation, so issuing a key
leaves every state that outlives the call unchanged; consequently the
issued key — although returned to the caller — resolves to nothing on
any later validation (its hash was never reachable before the call, and
is still not after it). -/
theorem memkey_unreachable (hmac : String → String) (e uuid : String)
    (now : Nat) (persist : MemStore) (h1 : e ≠ "")
    (h2 : jsEndsWith e "@gmail.com" = true)
    (hfresh : memLookup persist (hmac ("lynxa_pro_" ++ uuid)) = none) :
    (generateKeyMem (some e) hmac uuid now persist).2 = persist
    ∧ (generateKeyMem (some e) hmac uuid now persist).1.apiKey =
        some ("lynxa_pro_" ++ uuid)
    ∧ memLookup (generateKeyMem (some e) hmac uuid now persist).2
        (hmac ("lynxa_pro_" ++ uuid)) = none := by
  have hc : (e == "" || !(jsEndsWith e "@gmail.com")) = false := by
    simp [h1, h2]
  refine ⟨?_, ?_, ?_⟩ <;> simp [generateKeyMem, hc, hfresh]

/-- Witness for `memkey_unreachable`: one issuance against an empty
persistent state. -/
theorem memkey_unreachable_witness :
    (generateKeyMem (some "a@gmail.com") (fun s => s) "u" 0 []).2 = []
    ∧ (generateKeyMem (some "a@gmail.com") (fun s => s) "u" 0 []).1.apiKey =
        some ("lynxa_pro_" ++ "u")
    ∧ memLookup (generateKeyMem (some "a@gmail.com") (fun s => s) "u" 0 []).2
        ((fun s => s) ("lynxa_pro_" ++ "u")) = none :=
  memkey_unreachable (fun s => s) "a@gmail.com" "u" 0 [] (by decide)
    (by decide) rfl

/-- Claim C10: whenever the upstream stream contains the `[DONE]`
marker, the last SSE event written by the streaming path of
src/api/lynxa.js is the final chunk with the hardcoded usage
`{prompt_tokens: 143, completion_tokens: 80, total_tokens: 223}`,
whatever token counts the upstream chunks actually carried. -/
theorem stream_done_fixed_usage (parse : String → Option (Option String))
    (lines : List String) (hdone : "data: [DONE]" ∈ lines) :
    (processStreamLines parse lines).getLast? =
      some (SSEvent.final ⟨143, 80, 223⟩) := by
  induction lines with
  | nil => cases hdone
  | cons l ls ih =>
    have hstep : processStreamLines parse (l :: ls) =
        if jsStartsWith l "data: " then
          (if jsSlice l 6 == "[DONE]" then [SSEvent.final ⟨143, 80, 223⟩]
           else
             match parse (jsSlice l 6) with
             | some (some c) =>
               if c == "" then processStreamLines parse ls
               else SSEvent.delta c :: processStreamLines parse ls
             | _ => processStreamLines parse ls)
        else processStreamLines parse ls := rfl
    rw [hstep]
    by_cases hs : jsStartsWith l "data: " = true
    · rw [if_pos hs]
      by_cases hd : (jsSlice l 6 == "[DONE]") = true
      · rw [if_pos hd]
        rfl
      · rw [if_neg hd]
        have hne : l ≠ "data: [DONE]" := by
          intro he
          subst he
          exact hd (by decide)
        have hmem : "data: [DONE]" ∈ ls := by
          rcases List.mem_cons.mp hdone with h' | h'
          · exact absurd h'.symm hne
          · exact h'
        have ihh := ih hmem
        rcases hp : parse (jsSlice l 6) with _ | co
        · exact ihh
        · rcases co with _ | c
          · exact ihh
          · show (if (c == "") = true then processStreamLines parse ls
              else SSEvent.delta c :: processStreamLines parse ls).getLast? = _
            by_cases hc : (c == "") = true
            · rw [if_pos hc]
              exact ihh
            · rw [if_neg hc]
              exact getLast?_cons_of_getLast? _ ihh
    · rw [if_neg hs]
      have hne : l ≠ "data: [DONE]" := by
        intro he
        subst he
        exact hs (by decide)
      have hmem : "data: [DONE]" ∈ ls := by
        rcases List.mem_cons.mp hdone with h' | h'
        · exact absurd h'.symm hne
        · exact h'
      exact ih hmem

/-- Witness for `stream_done_fixed_usage`: a stream holding one content
chunk and the `[DONE]` marker. -/
theorem stream_done_fixed_usage_witness :
    (processStreamLines (fun _ => some (some "hi"))
      ["data: x", "data: [DONE]"]).getLast? =
      some (SSEvent.final ⟨143, 80, 223⟩) :=
  stream_done_fixed_usage (fun _ => some (some "hi"))
    ["data: x", "data: [DONE]"] (by decide)

end Lynxa
